import Mathlib

/-!
Verification development for the timer-triggered file pipeline
(`CTRL-PKS-TimerTrigger1` and `Process-KAATOP-data` Azure functions).

The Python source is shallowly embedded: pure helpers (filename parsing,
timestamp formatting, record extraction/merge) become Lean functions;
the stateful orchestrators (`main` of each job) become functions from an
explicit environment (remote directory listing, per-file transform
success, remote metadata fields, timestamp of the run) to a run record
(accumulated log, trace of external calls, final remote state, failure
flag).  External collaborators (the SFTP server and the cloud
document-library API) are modelled as state carried in the environment;
their responses follow the interface the code relies on: a request on
a missing drive path answers 404 with a body carrying the
distinguishable "itemNotFound" code, uniformly for listing and for the
folder-creation POST.
-/

/-! ### String helpers

The Python code works with `str`; we embed strings as Lean `String` but
perform the case/suffix/substring operations on the underlying character
lists so that all definitions reduce inside the kernel. -/

/-- Python `s.lower()`. -/
def lowerStr (s : String) : String := String.mk (s.data.map Char.toLower)

/-- Python `s.endswith(t)`. -/
def strEndsWith (s t : String) : Bool := t.data.isSuffixOf s.data

/-- Python `s.startswith(t)`. -/
def strStartsWith (s t : String) : Bool := t.data.isPrefixOf s.data

/-- Auxiliary substring scan on character lists. -/
def hasSubList (pat : List Char) : List Char → Bool
  | [] => pat.isEmpty
  | c :: rest => pat.isPrefixOf (c :: rest) || hasSubList pat rest

/-- Python `t in s` (substring containment). -/
def strHasSub (s t : String) : Bool := hasSubList t.data s.data

/-- Python `sep.join(xs)` (used to render directory listings in log lines). -/
def joinWith (sep : String) : List String → String
  | [] => ""
  | [x] => x
  | x :: y :: xs => x ++ sep ++ joinWith sep (y :: xs)

/-- Split a character list on a separator character (helper for
`str.split`). -/
def splitChar (sep : Char) : List Char → List (List Char)
  | [] => [[]]
  | c :: rest =>
    let r := splitChar sep rest
    if c == sep then [] :: r
    else
      match r with
      | h :: t => (c :: h) :: t
      | [] => [[c]]

/-- Python `s.split("_")` with unlimited splits. -/
def splitUnderscore (s : String) : List String :=
  (splitChar '_' s.data).map String.mk

/-- Find the last `'.'` of a reversed character list: returns
`(reversed extension, reversed root)`. -/
def splitextRev : List Char → Option (List Char × List Char)
  | [] => none
  | c :: rest =>
    if c == '.' then some ([], rest)
    else
      match splitextRev rest with
      | some (e, r) => some (c :: e, r)
      | none => none

/-- Python `os.path.splitext(s)`: split at the last dot, except when every
character before that dot is itself a dot (Python's leading-dot rule). -/
def splitext (s : String) : String × String :=
  match splitextRev s.data.reverse with
  | some (extRev, rootRev) =>
    if rootRev.any (fun c => c != '.') then
      (String.mk rootRev.reverse, String.mk ('.' :: extRev.reverse))
    else (s, "")
  | none => (s, "")

/-- Python `os.path.basename` for `/`-separated paths. -/
def basenameOf (p : String) : String :=
  match (splitChar '/' p.data).reverse with
  | last :: _ => String.mk last
  | [] => p

/-- Python `os.path.dirname` for `/`-separated paths. -/
def dirnameOf (p : String) : String :=
  match (splitChar '/' p.data).reverse with
  | _ :: [] => ""
  | _ :: rest => joinWith "/" ((rest.reverse).map String.mk)
  | [] => ""

/-- Python `os.path.join(d, n)` for the simple shapes used by the jobs. -/
def joinPath (d n : String) : String :=
  if d = "" then n else d ++ "/" ++ n

/-- Effect of the regex search `(.*)(\d{14})$` followed by
`base_name = match.group(1)`: if the last fourteen characters are all
digits, they are removed. -/
def stripTrailing14Digits (s : String) : String :=
  let cs := s.data
  if cs.length ≥ 14 && (cs.drop (cs.length - 14)).all Char.isDigit then
    String.mk (cs.take (cs.length - 14))
  else s

/-! ### `parse_filename_parts` (CTRL-PKS `__init__.py`, lines 215-240) -/

/-- Function `parse_filename_parts(filename)`: strip the extension, strip a
trailing 14-digit timestamp when present, split on the first two
underscores; fewer than three tokens give `(base, "")`, otherwise the
prefix is the first two tokens re-joined and the remainder is the rest. -/
def parse_filename_parts (filename : String) : String × String :=
  let base₀ := (splitext filename).1
  let base_name := stripTrailing14Digits base₀
  match splitUnderscore base_name with
  | a :: b :: c :: rest => (a ++ "_" ++ b, joinWith "_" (c :: rest))
  | _ => (base_name, "")

/-! ### Timestamps and the history destination
(`get_timestamp`, `move_files_to_history`) -/

/-- A wall-clock instant in the Europe/Helsinki timezone, as far as the
jobs observe it.  The `second` field exists to express that the
formatted token ignores it. -/
structure FiTime where
  year : Nat
  month : Nat
  day : Nat
  hour : Nat
  minute : Nat
  second : Nat
  deriving DecidableEq

/-- Character for a single decimal digit. -/
def digitChar (n : Nat) : Char := Char.ofNat (48 + n)

/-- Two-digit zero-padded field (`%m`, `%d`, `%H`, `%M`). -/
def pad2 (n : Nat) : String := String.mk [digitChar (n / 10 % 10), digitChar (n % 10)]

/-- Four-digit zero-padded field (`%Y`, for the in-range years the jobs
ever see). -/
def pad4 (n : Nat) : String :=
  String.mk [digitChar (n / 1000 % 10), digitChar (n / 100 % 10),
             digitChar (n / 10 % 10), digitChar (n % 10)]

/-- Function `get_timestamp()`: `strftime("%Y-%m-%d_%H%M")` applied to the
current Helsinki time. -/
def get_timestamp_fmt (t : FiTime) : String :=
  pad4 t.year ++ "-" ++ pad2 t.month ++ "-" ++ pad2 t.day ++ "_" ++
    pad2 t.hour ++ pad2 t.minute

/-- Destination path computed by `move_files_to_history` when
`add_timestamp` is true: `f"history/{get_timestamp()}_{remote_file}"`. -/
def history_dest (ts remote_file : String) : String :=
  "history/" ++ ts ++ "_" ++ remote_file

/-! ### Record reshaping (`Process-KAATOP-data`, `extract_records` /
`merge_records`) -/

/-- One data row of the raw KAATOP CSV after `load_data` (only the three
columns the transform reads). -/
structure RawRow where
  comPos : Int
  comKey : String
  comText : String
  deriving DecidableEq

/-- A row of the merged output: `COMText` of the ID row renamed to
`TAPKaatop`, `COMText` of the TEXT row renamed to `TAPKaatopDefinition`;
the join key `COMPos` is dropped. -/
structure MergedRow where
  TAPKaatop : String
  TAPKaatopDefinition : String
  deriving DecidableEq

/-- Function `extract_records(df)`: rows whose `COMKey` contains `"ID"` keep
`(COMPos, COMText)` with `COMText` renamed `TAPKaatop`; rows whose
`COMKey` contains `"TEXT"` keep `(COMPos, COMText)` with `COMText`
renamed `TAPKaatopDefinition`. -/
def extract_records (df : List RawRow) : List (Int × String) × List (Int × String) :=
  ((df.filter (fun r => strHasSub r.comKey "ID")).map (fun r => (r.comPos, r.comText)),
   (df.filter (fun r => strHasSub r.comKey "TEXT")).map (fun r => (r.comPos, r.comText)))

/-- Function `merge_records(id_records, text_records)`: pandas inner merge on
`COMPos` (left rows outer, matching right rows inner) followed by
dropping the `COMPos` column. -/
def merge_records (id_records text_records : List (Int × String)) : List MergedRow :=
  id_records.flatMap (fun i =>
    (text_records.filter (fun t => t.1 == i.1)).map (fun t => ⟨i.2, t.2⟩))

/-! ### `convert_csv_to_xlsx` (CTRL-PKS `__init__.py`, lines 254-337)

The file system and the pandas/xlsxwriter layer are abstracted into
three observables: whether `os.path.exists` holds for the input path,
whether the `pd.read_csv`/header reshaping succeeds, and whether the
`ExcelWriter` block succeeds.  Everything the function itself decides
(extension check, base-name derivation, output path, sentinel return)
is translated verbatim. -/

structure ConvEnv where
  csvPath : String
  fileExists : Bool
  parseOk : Bool
  writeOk : Bool
  deriving DecidableEq

/-- Name of the produced workbook: the input's base name with a trailing
14-digit timestamp stripped, plus `.xlsx`; with `prepend_timestamp` a
`{timestamp}_` prefix is added. -/
def xlsxNameFor (csvPath : String) (prependTs : Bool) (ts : String) : String :=
  let base₀ := (splitext (basenameOf csvPath)).1
  let base_name := stripTrailing14Digits base₀
  if prependTs then ts ++ "_" ++ base_name ++ ".xlsx" else base_name ++ ".xlsx"

/-- Full output path: `os.path.join(os.path.dirname(csv_file_path), xlsx_file_name)`. -/
def xlsxPathFor (csvPath : String) (prependTs : Bool) (ts : String) : String :=
  joinPath (dirnameOf csvPath) (xlsxNameFor csvPath prependTs ts)

/-- Body of the `try:` block of `convert_csv_to_xlsx`: each `raise`
becomes an `Except.error` carrying the message the code formats. -/
def convertBody (env : ConvEnv) (prependTs : Bool) (ts : String) : Except String String :=
  if env.fileExists = false then
    Except.error ("File not found: " ++ env.csvPath)
  else if strEndsWith (lowerStr env.csvPath) ".csv" = false then
    Except.error "Provided file is not a CSV."
  else if env.parseOk = false then
    Except.error ("Error tokenizing data in " ++ env.csvPath)
  else if env.writeOk = false then
    Except.error ("Unable to write " ++ xlsxPathFor env.csvPath prependTs ts)
  else
    Except.ok (xlsxPathFor env.csvPath prependTs ts)

/-- Function `convert_csv_to_xlsx`: the blanket `except` turns any raised error
into the sentinel pair `("Error, no path", False)`; on success the
function returns `(xlsx_file_path, True)`.  Also returns the lines the
function handed to `log_func`. -/
def convert_csv_to_xlsx (env : ConvEnv) (prependTs : Bool) (ts : String) :
    (String × Bool) × List String :=
  match convertBody env prependTs ts with
  | Except.ok p => ((p, true), ["Converted: " ++ env.csvPath ++ " -> " ++ p])
  | Except.error e =>
    (("Error, no path", false),
     ["Error converting " ++ env.csvPath ++ " to XLSX: " ++ e])

/-! ### Document-library client (`SharePointHandler`)

The drive is the client's environment: a set of existing folder paths
and a list of items tagged with their parent folder path.  A request on
a missing folder path is answered, as the Graph API does, with a 404
whose body carries the `itemNotFound` error code — the substring the
client's `create_folder_if_not_exists` matches on.  `netFault` injects
a non-404 failure (network/auth) for a given path, producing an error
message without that substring.  The folder-creation POST follows the
same children-endpoint convention as the listing: addressed to a path
that exists it creates a child of that path; addressed to a missing
path it is answered 404 itemNotFound (non-2xx), on which the code
raises.  The move (patch) request is modelled as succeeding with its
documented effect: a parent-reference patch re-parents the item in
place (same id, no copy). -/

structure SPItem where
  id : Nat
  name : String
  isFile : Bool
  deriving DecidableEq

structure DriveState where
  folders : List String
  items : List (String × SPItem)
  deriving DecidableEq

structure SPWorld where
  st : DriveState
  netFault : String → Option (Nat × String)

/-- External calls the client issues, in order. -/
inductive SPCall where
  | listCall (path : String)
  | createCall (path : String) (name : String)
  | patchCall (itemId : Nat) (newParentPath : String) (keptName : String)
  deriving DecidableEq

/-- Direct children of a folder path. -/
def childrenOf (st : DriveState) (p : String) : List SPItem :=
  (st.items.filter (fun pr => pr.1 == p)).map (fun pr => pr.2)

/-- Body text of the Graph 404 answer for a missing drive path. -/
def notFoundBody : String := "itemNotFound: The resource could not be found."

/-- Method `list_files(folder_path)`: 200 returns the children; any non-200
raises `Exception(f"Failed to list files: {status}, {text}")`. The
empty path lists the drive root. -/
def list_files (w : SPWorld) (folder_path : String) : Except String (List SPItem) :=
  match w.netFault folder_path with
  | some (code, body) =>
    Except.error ("Failed to list files: " ++ toString code ++ ", " ++ body)
  | none =>
    if folder_path = "" || w.st.folders.contains folder_path then
      Except.ok (childrenOf w.st folder_path)
    else
      Except.error ("Failed to list files: 404, " ++ notFoundBody)

/-- Result of one client operation: the drive state it leaves behind,
the calls it issued, the log lines it appended, and the raised error
message, if any. -/
structure SPOut (α : Type) where
  st : DriveState
  calls : List SPCall
  log : List String
  result : Except String α

/-- Last `/`-separated segment (`folder_path.split('/')[-1]`). -/
def lastSegment (p : String) : String :=
  match (splitChar '/' p.data).reverse with
  | last :: _ => String.mk last
  | [] => p

/-- Method `create_folder_if_not_exists(folder_path)`: probe with
`list_files(folder_path)`; on success only log; on an error whose text
contains `"itemNotFound"` issue the creation request — a POST to
`root:/{folder_path}:/children` with `name = folder_path.split('/')[-1]`.
That POST is addressed to the children endpoint of `folder_path`
itself, so by the drive's path convention it succeeds (creating the
child `folder_path/{lastSegment}`) only when `folder_path` already
exists; addressed to a missing path it is answered 404 itemNotFound,
a non-2xx status on which the code raises the formatted creation
error.  Any other probe error is re-raised unchanged.  (A 409 conflict
for an already-present child is not modelled; no theorem depends on
that corner.) -/
def create_folder_if_not_exists (w : SPWorld) (folder_path : String) : SPOut Unit :=
  match list_files w folder_path with
  | Except.ok _ =>
    { st := w.st, calls := [SPCall.listCall folder_path],
      log := ["Folder '" ++ folder_path ++ "' already exists."],
      result := Except.ok () }
  | Except.error e =>
    if strHasSub e "itemNotFound" then
      if w.st.folders.contains folder_path then
        { st := { w.st with
                  folders := w.st.folders ++ [folder_path ++ "/" ++ lastSegment folder_path] },
          calls := [SPCall.listCall folder_path,
                    SPCall.createCall folder_path (lastSegment folder_path)],
          log := ["Creating folder '" ++ folder_path ++ "'.",
                  "Folder '" ++ folder_path ++ "' created successfully."],
          result := Except.ok () }
      else
        { st := w.st,
          calls := [SPCall.listCall folder_path,
                    SPCall.createCall folder_path (lastSegment folder_path)],
          log := ["Creating folder '" ++ folder_path ++ "'.",
                  "Failed to create folder '" ++ folder_path ++ "': 404, " ++ notFoundBody],
          result := Except.error
            ("Failed to create folder '" ++ folder_path ++ "': 404, " ++ notFoundBody) }
    else
      { st := w.st, calls := [SPCall.listCall folder_path], log := [],
        result := Except.error e }

/-- Re-parent the item with the given id (the effect of the Graph
parent-reference patch). -/
def reparentItem (st : DriveState) (itemId : Nat) (newParent : String) : DriveState :=
  { st with items := st.items.map (fun pr => if pr.2.id == itemId then (newParent, pr.2) else pr) }

/-- Method `move_file_to_archive(file_name, archive_folder, main_folder)`:
resolve the item id by scanning `list_files(main_folder)` for an exact
name match; raise when absent (zero patch calls), otherwise patch the
item's parent reference to `/drive/root:/{archive_folder}` keeping the
same name. -/
def move_file_to_archive (w : SPWorld) (file_name archive_folder main_folder : String) :
    SPOut Unit :=
  match list_files w main_folder with
  | Except.error e =>
    { st := w.st, calls := [SPCall.listCall main_folder], log := [],
      result := Except.error e }
  | Except.ok items =>
    match items.find? (fun item => item.name == file_name) with
    | none =>
      { st := w.st, calls := [SPCall.listCall main_folder],
        log := ["File named '" ++ file_name ++ "' not found in the current folder."],
        result := Except.error
          ("File named '" ++ file_name ++ "' not found in the current folder.") }
    | some target =>
      { st := reparentItem w.st target.id archive_folder,
        calls := [SPCall.listCall main_folder,
                  SPCall.patchCall target.id ("/drive/root:/" ++ archive_folder) file_name],
        log := ["Moving file '" ++ file_name ++ "' to '" ++ archive_folder ++ "'.",
                "File '" ++ file_name ++ "' moved to '" ++ archive_folder ++ "' successfully."],
        result := Except.ok () }

/-! ### Orchestrator runs

Both `main` functions are embedded as functions from an environment
(directory listing found on the remote store, success of each local
transform, remote metadata, the run's timestamp) to a run record: the
accumulated in-memory log, the ordered trace of external calls, the
final remote state, and whether the run raised.  `cwd` and `get` are
modelled as succeeding — every claim about failure concerns steps at or
after the transform — and Python list reprs inside log lines are
rendered with a plain `", "` join.  `tempfile.gettempdir()` is the
constant `/tmp`. -/

/-- External calls an orchestrator run issues, in order. -/
inductive RunAct where
  | connectA
  | cwdA (d : String)
  | listdirA
  | getA (remote loc : String)
  | mkdirA (d : String)
  | renameA (src dst : String)
  | putA (loc remote : String)
  | disconnectA
  | spInitA
  | spListA (path : String)
  | spCreateA (path name : String)
  | spFieldsA (itemId : Nat)
  | spPatchA (itemId : Nat) (newParentPath keptName : String)
  | spUploadA (name folder : String)
  deriving DecidableEq

/-- View an issued document-library call as a trace action. -/
def spCallToAction : SPCall → RunAct
  | SPCall.listCall p => RunAct.spListA p
  | SPCall.createCall p n => RunAct.spCreateA p n
  | SPCall.patchCall i p n => RunAct.spPatchA i p n

/-- State threaded while a run manipulates the remote SFTP directory. -/
structure SftpAcc where
  dir : List String
  hist : List String
  log : List String
  trace : List RunAct

/-- Method `move_files_to_history(remote_file)` (with `add_timestamp=True`) for
each name in turn: `listdir` (logging the listing), create `history`
when absent, then `rename` the entry to
`history/{get_timestamp()}_{remote_file}`. -/
def moveFilesToHistoryFold (ts : String) : List String → SftpAcc → SftpAcc
  | [], acc => acc
  | name :: rest, acc =>
    let acc1 : SftpAcc :=
      { acc with
        log := acc.log ++ ["Directory listing: " ++ joinWith ", " acc.dir],
        trace := acc.trace ++ [RunAct.listdirA] }
    let acc2 : SftpAcc :=
      if acc1.dir.contains "history" then acc1
      else
        { acc1 with
          dir := acc1.dir ++ ["history"],
          log := acc1.log ++ ["Created 'history' directory on remote."],
          trace := acc1.trace ++ [RunAct.mkdirA "history"] }
    let dest := history_dest ts name
    let acc3 : SftpAcc :=
      { acc2 with
        dir := acc2.dir.erase name,
        hist := acc2.hist ++ [ts ++ "_" ++ name],
        log := acc2.log ++ ["Moved/Renamed: " ++ name ++ " -> " ++ dest],
        trace := acc2.trace ++ [RunAct.renameA name dest] }
    moveFilesToHistoryFold ts rest acc3

/-! #### `Process-KAATOP-data` `main` -/

structure KEnv where
  debugMode : Bool
  listing : List String
  transformOk : String → Bool
  saveOk : Bool
  putOk : String → Bool
  ts : String

structure KOut where
  log : List String
  trace : List RunAct
  failed : Bool
  rawDir : List String
  history : List String
  processedRemote : List String

/-- First loop of the KAATOP `main`: for each discovered CSV, `get` it
into the temp directory and immediately `move_files_to_history` it.
Returns the accumulated state plus the local raw paths. -/
def kaatopDownloadFold (ts : String) : List String → SftpAcc × List String →
    SftpAcc × List String
  | [], st => st
  | name :: rest, (acc, locals) =>
    let localPath := joinPath "/tmp" name
    let acc1 : SftpAcc :=
      { acc with
        log := acc.log ++ ["Downloaded: " ++ name ++ " -> " ++ localPath],
        trace := acc.trace ++ [RunAct.getA name localPath] }
    let acc2 := moveFilesToHistoryFold ts [name] acc1
    kaatopDownloadFold ts rest (acc2, locals ++ [localPath])

/-- Second loop: `load_data` / `extract_records` / `merge_records` /
`save_data` per raw path.  `load_data`, `extract_records` and
`merge_records` report errors only to `logging`, not to the in-memory
list; `save_data` logs both outcomes.  The first failure raises. -/
def kaatopTransformFold (transformOk : String → Bool) (saveOk : Bool) (ts : String) :
    List String → List String × List String → (List String × List String) × Option String
  | [], st => (st, none)
  | p :: rest, (processed, log) =>
    if transformOk p then
      let finalPath := joinPath "/tmp" (ts ++ "_KAATOPAIKAT.csv")
      if saveOk then
        kaatopTransformFold transformOk saveOk ts rest
          (processed ++ [finalPath],
           log ++ ["Data successfully saved to: " ++ finalPath])
      else
        ((processed, log ++ ["Error saving data: write failure"]), some "write failure")
    else
      ((processed, log), some ("Error loading data from file " ++ p))

/-- Third loop: `put` each processed file into `PROCESSED`; the handler
logs the upload, or logs the error and re-raises. -/
def kaatopPutFold (putOk : String → Bool) :
    List String → (List String × List String × List RunAct) →
    (List String × List String × List RunAct) × Option String
  | [], st => (st, none)
  | p :: rest, (remote, log, trace) =>
    let base := basenameOf p
    if putOk base then
      kaatopPutFold putOk rest
        (remote ++ [base],
         log ++ ["Uploaded: " ++ p ++ " -> " ++ base],
         trace ++ [RunAct.putA p base])
    else
      ((remote, log ++ ["Error in put: transfer failure"], trace), some "transfer failure")

/-- The `except` clause of both orchestrators: append the traceback
marker and the (modelled) traceback text, then re-raise. -/
def failLog (log : List String) (e : String) : List String :=
  log ++ ["\n--- EXCEPTION TRACEBACK ---", e]

/-- Function `main` of `Process-KAATOP-data`: navigate to
`jhl_vastaanottopaikat/RAW-DATA`, list, stop cleanly when no `.csv` is
present; otherwise download each CSV and immediately move it to
`history`, then transform and save each download, change to
`PROCESSED`, upload the results, and disconnect.  Any raised error
lands in the `except` clause (traceback appended, run marked failed). -/
def kaatopRun (env : KEnv) : KOut :=
  let log0 := [if env.debugMode then "-----IN DEBUG MODE-----" else "-----IN PRODUCTION MODE-----",
               "Connecting to SFTP...",
               "Connection successfully established via Paramiko!",
               "Changed remote directory to: jhl_vastaanottopaikat",
               "Changed remote directory to: RAW-DATA",
               "Directory listing: " ++ joinWith ", " env.listing]
  let tr0 := [RunAct.connectA, RunAct.cwdA "jhl_vastaanottopaikat",
              RunAct.cwdA "RAW-DATA", RunAct.listdirA]
  let csv_files := env.listing.filter (fun f => strEndsWith (lowerStr f) ".csv")
  if csv_files.isEmpty then
    { log := log0 ++ ["No .csv files found. Terminating...", "Connection closed."],
      trace := tr0 ++ [RunAct.disconnectA],
      failed := false, rawDir := env.listing, history := [], processedRemote := [] }
  else
    let log1 := log0 ++ ["Found " ++ toString csv_files.length ++ " CSV file(s): " ++
                         joinWith ", " csv_files]
    let dl := kaatopDownloadFold env.ts csv_files
      ({ dir := env.listing, hist := [], log := log1, trace := tr0 }, [])
    let acc := dl.1
    let tf := kaatopTransformFold env.transformOk env.saveOk env.ts dl.2 ([], acc.log)
    match tf.2 with
    | some e =>
      { log := failLog tf.1.2 e, trace := acc.trace, failed := true,
        rawDir := acc.dir, history := acc.hist, processedRemote := [] }
    | none =>
      let log3 := tf.1.2 ++ ["Changed remote directory to: ..",
                             "Changed remote directory to: PROCESSED"]
      let tr3 := acc.trace ++ [RunAct.cwdA "..", RunAct.cwdA "PROCESSED"]
      let pf := kaatopPutFold env.putOk tf.1.1 ([], log3, tr3)
      match pf.2 with
      | some e =>
        { log := failLog pf.1.2.1 e, trace := pf.1.2.2, failed := true,
          rawDir := acc.dir, history := acc.hist, processedRemote := pf.1.1 }
      | none =>
        { log := pf.1.2.1 ++ ["Connection closed.",
                              "Python timer trigger function completed at " ++ env.ts],
          trace := pf.1.2.2 ++ [RunAct.disconnectA],
          failed := false, rawDir := acc.dir, history := acc.hist,
          processedRemote := pf.1.1 }

/-! #### `CTRL-PKS-TimerTrigger1` `main` -/

structure CEnv where
  debugMode : Bool
  combineFiles : Bool
  listing : List String
  parseOk : String → Bool
  writeOk : String → Bool
  drive : DriveState
  netFault : String → Option (Nat × String)
  tehty : Nat → Option Bool
  uploadOk : String → Bool
  ts : String
  utcTs : String

structure COut where
  log : List String
  trace : List RunAct
  failed : Bool
  sftpDir : List String
  history : List String
  drive : DriveState
  uploaded : List String

/-- Download loop (`1D`): `get` each CSV into the temp directory. -/
def ctrlDownloadFold : List String → (List String × List RunAct × List String) →
    List String × List RunAct × List String
  | [], st => st
  | name :: rest, (log, trace, locals) =>
    let localPath := joinPath "/tmp" name
    ctrlDownloadFold rest
      (log ++ ["Downloaded: " ++ name ++ " -> " ++ localPath],
       trace ++ [RunAct.getA name localPath],
       locals ++ [localPath])

/-- Single-file conversion loop (`1E`, `COMBINE_FILES` false): call
`convert_csv_to_xlsx` (default `prepend_timestamp=False`) on each
download; the first sentinel stops the loop and reports the failing
path. -/
def ctrlConvertFold (parseOk writeOk : String → Bool) (ts : String) :
    List String → (List String × List String) →
    (List String × List String) × Option String
  | [], st => (st, none)
  | p :: rest, (xlsxs, log) =>
    let ((res, ok), clog) := convert_csv_to_xlsx ⟨p, true, parseOk p, writeOk p⟩ false ts
    if ok then
      ctrlConvertFold parseOk writeOk ts rest (xlsxs ++ [res], log ++ clog)
    else
      ((xlsxs, log ++ clog), some p)

/-- Function `combine_csvs_to_one_xlsx`: the workbook is named
`{timestamp}_{prefix}.xlsx` from the first input's prefix; each input
contributes a worksheet named after its remainder (default `"Sheet"`);
an inner error is logged and re-raised, aborting the whole combine.
(The worksheet row/column-count log lines are omitted: the model does
not carry dataframe contents.) -/
def combineInnerFold (parseOk : String → Bool) :
    List String → List String → List String × Option String
  | [], log => (log, none)
  | p :: rest, log =>
    let rem := (parse_filename_parts (basenameOf p)).2
    let sheet := if rem = "" then "Sheet" else rem
    let log1 := log ++ ["Processing CSV: " ++ p ++ " for worksheet '" ++ sheet ++ "'"]
    if parseOk p then
      combineInnerFold parseOk rest
        (log1 ++ ["Finished processing worksheet '" ++ sheet ++ "'."])
    else
      (log1 ++ ["Error processing CSV file '" ++ p ++ "': parse failure"],
       some ("parse failure in " ++ p))

def combine_csvs_to_one_xlsx (parseOk : String → Bool) (ts : String)
    (csv_files : List String) : List String × Except String String :=
  match csv_files with
  | [] =>
    (["Error in combine_csvs_to_one_xlsx: No CSV files provided."],
     Except.error "No CSV files provided.")
  | first :: _ =>
    let namePre := (parse_filename_parts (basenameOf first)).1
    let finalPath := joinPath "/tmp" (ts ++ "_" ++ namePre ++ ".xlsx")
    let log0 := ["Starting to combine CSV files into one XLSX workbook.",
                 "Final XLSX file will be: " ++ finalPath]
    let (log1, err) := combineInnerFold parseOk csv_files log0
    match err with
    | some e =>
      (log1 ++ ["Error in combine_csvs_to_one_xlsx: " ++ e], Except.error e)
    | none =>
      (log1 ++ ["Successfully combined CSV files into one XLSX workbook."],
       Except.ok finalPath)

/-- Render of `fields_data.get("Tehty")` inside the skip log line. -/
def showTehty : Option Bool → String
  | none => "None"
  | some false => "False"
  | some true => "True"

/-- State threaded through the document-library phase. -/
structure SpAcc where
  st : DriveState
  log : List String
  trace : List RunAct

/-- Step `2B`: for each existing XLSX item, fetch its list-item fields and
move it to the archive exactly when `Tehty` is `True`; a raised move
error aborts the loop. -/
def ctrlTehtyFold (netFault : String → Option (Nat × String))
    (tehty : Nat → Option Bool) (archive_folder main_folder : String) :
    List SPItem → SpAcc → SpAcc × Option String
  | [], acc => (acc, none)
  | item :: rest, acc =>
    let acc1 : SpAcc :=
      { acc with
        log := acc.log ++ ["List item fields retrieved successfully."],
        trace := acc.trace ++ [RunAct.spFieldsA item.id] }
    match tehty item.id with
    | some true =>
      let acc2 : SpAcc :=
        { acc1 with
          log := acc1.log ++
            ["'Tehty' == True for '" ++ item.name ++ "'. Moving to archive..."] }
      let mout := move_file_to_archive ⟨acc2.st, netFault⟩ item.name archive_folder main_folder
      let acc3 : SpAcc :=
        { st := mout.st, log := acc2.log ++ mout.log,
          trace := acc2.trace ++ mout.calls.map spCallToAction }
      match mout.result with
      | Except.error e => (acc3, some e)
      | Except.ok _ => ctrlTehtyFold netFault tehty archive_folder main_folder rest acc3
    | v =>
      ctrlTehtyFold netFault tehty archive_folder main_folder rest
        { acc1 with
          log := acc1.log ++
            ["'Tehty' is not True for '" ++ item.name ++ "' (value: " ++
             showTehty v ++ "). Skipping."] }

/-- Step `2C`: upload each produced workbook; a non-2xx answer raises and
aborts the loop.  A successful upload adds the item (fresh id) under
the destination folder. -/
def ctrlUploadFold (uploadOk : String → Bool) (folder : String) :
    List String → Nat → (SpAcc × List String) → (SpAcc × List String) × Option String
  | [], _, st => (st, none)
  | p :: rest, freshId, (acc, uploaded) =>
    let name := basenameOf p
    let acc1 : SpAcc :=
      { acc with
        log := acc.log ++ ["Uploading file '" ++ name ++ "' to '" ++ folder ++ "'."] }
    if uploadOk name then
      let acc2 : SpAcc :=
        { st := { acc1.st with items := acc1.st.items ++ [(folder, ⟨freshId, name, true⟩)] },
          log := acc1.log ++
            ["File '" ++ name ++ "' uploaded successfully to '" ++ folder ++ "'."],
          trace := acc1.trace ++ [RunAct.spUploadA name folder] }
      ctrlUploadFold uploadOk folder rest (freshId + 1) (acc2, uploaded ++ [name])
    else
      ((acc1, uploaded),
       some ("Failed to upload file '" ++ name ++ "': 500, upload failure"))

/-- Step `2D`: best-effort deletion of the temporary workbooks (modelled as
succeeding, hence only the success log lines). -/
def ctrlDeleteLogs : List String → List String
  | [] => []
  | p :: rest => ("Deleted temporary XLSX file: " ++ p) :: ctrlDeleteLogs rest

/-- Function `main` of `CTRL-PKS-TimerTrigger1`: connect, navigate to
`JANNE/vantaa_tallenna_liite`, list, stop cleanly when no `.csv` is
present; otherwise download all CSVs, convert (combined or single-file
mode; a single-file sentinel triggers an explicit disconnect and a
`RuntimeError`), construct the document-library client, ensure the
archive folder, conditionally archive existing workbooks by their
`Tehty` flag, upload the new workbooks, only then move the source CSVs
to `history`, delete the temp files and disconnect.  Any raised error
lands in the `except` clause.  Log lines that would render unmodelled
URL/site identifiers are omitted; the markers the spec counts
(`Downloaded:`, `Converted:`, `Moved/Renamed:`, `uploaded
successfully`) are rendered exactly as the code formats them. -/
def ctrlRun (env : CEnv) : COut :=
  let log0 := [if env.debugMode then "-----IN DEBUG MODE-----" else "-----IN PRODUCTION MODE-----",
               if env.combineFiles then "-----COMBINE_FILES-----" else "-----NO COMBINE_FILES-----",
               "Connecting to SFTP...",
               "Connection successfully established via Paramiko!",
               "Changed remote directory to: JANNE",
               "Changed remote directory to: vantaa_tallenna_liite",
               "Directory listing: " ++ joinWith ", " env.listing]
  let tr0 := [RunAct.connectA, RunAct.cwdA "JANNE",
              RunAct.cwdA "vantaa_tallenna_liite", RunAct.listdirA]
  let csv_files := env.listing.filter (fun f => strEndsWith (lowerStr f) ".csv")
  if csv_files.isEmpty then
    { log := log0 ++ ["No .csv files found. Terminating...", "Connection closed."],
      trace := tr0 ++ [RunAct.disconnectA],
      failed := false, sftpDir := env.listing, history := [],
      drive := env.drive, uploaded := [] }
  else
    let log1 := log0 ++ ["Found " ++ toString csv_files.length ++ " CSV file(s): " ++
                         joinWith ", " csv_files]
    let dl := ctrlDownloadFold csv_files (log1, tr0, [])
    let log2 := dl.1
    let tr2 := dl.2.1
    let convOut :=
      if env.combineFiles then
        let cb := combine_csvs_to_one_xlsx env.parseOk env.ts dl.2.2
        match cb.2 with
        | Except.ok p => Except.ok ([p], log2 ++ cb.1, tr2)
        | Except.error e => Except.error (failLog (log2 ++ cb.1) e, tr2)
      else
        let cf := ctrlConvertFold env.parseOk env.writeOk env.ts dl.2.2 ([], log2)
        match cf.2 with
        | none => Except.ok (cf.1.1, cf.1.2, tr2)
        | some p =>
          let clog1 := cf.1.2 ++ ["Connection closed.",
                                  "CSV-to-XLSX conversion failed for " ++ p]
          Except.error (failLog clog1 ("CSV-to-XLSX conversion failed for " ++ p),
                        tr2 ++ [RunAct.disconnectA])
    match convOut with
    | Except.error pr =>
      { log := pr.1, trace := pr.2, failed := true, sftpDir := env.listing,
        history := [], drive := env.drive, uploaded := [] }
    | Except.ok triple =>
      let new_xlsx_files := triple.1
      let log3 := triple.2.1
      let tr3 := triple.2.2
      let log4 := log3 ++ ["Acquired access token successfully.",
                           "Selected Drive ID: Vingo Kyselyt"]
      let tr4 := tr3 ++ [RunAct.spInitA]
      let main_folder := if env.debugMode then "Testi" else "002 Vantaa"
      let archive_folder := main_folder ++ "/Arkisto"
      let cfOut := create_folder_if_not_exists ⟨env.drive, env.netFault⟩ archive_folder
      let log5 := log4 ++ cfOut.log
      let tr5 := tr4 ++ cfOut.calls.map spCallToAction
      match cfOut.result with
      | Except.error e =>
        { log := failLog log5 e, trace := tr5, failed := true,
          sftpDir := env.listing, history := [], drive := cfOut.st, uploaded := [] }
      | Except.ok _ =>
        let w1 : SPWorld := ⟨cfOut.st, env.netFault⟩
        let tr6 := tr5 ++ [RunAct.spListA main_folder]
        match list_files w1 main_folder with
        | Except.error e =>
          { log := failLog (log5 ++ [e]) e, trace := tr6, failed := true,
            sftpDir := env.listing, history := [], drive := cfOut.st, uploaded := [] }
        | Except.ok existing_files =>
          let log6 := log5 ++ ["Retrieved " ++ toString existing_files.length ++
                               " item(s) from '" ++ main_folder ++ "'."]
          let xlsx_items := existing_files.filter
            (fun f => f.isFile && strEndsWith (lowerStr f.name) ".xlsx")
          let log7 := log6 ++ ["Found " ++ toString xlsx_items.length ++
                               " existing XLSX file(s) in '" ++ main_folder ++ "': " ++
                               joinWith ", " (xlsx_items.map (fun f => f.name))]
          let tt := ctrlTehtyFold env.netFault env.tehty archive_folder
            main_folder xlsx_items ⟨cfOut.st, log7, tr6⟩
          match tt.2 with
          | some e =>
            { log := failLog tt.1.log e, trace := tt.1.trace, failed := true,
              sftpDir := env.listing, history := [], drive := tt.1.st, uploaded := [] }
          | none =>
            let uf := ctrlUploadFold env.uploadOk main_folder new_xlsx_files 9000 (tt.1, [])
            match uf.2 with
            | some e =>
              { log := failLog uf.1.1.log e, trace := uf.1.1.trace, failed := true,
                sftpDir := env.listing, history := [], drive := uf.1.1.st,
                uploaded := uf.1.2 }
            | none =>
              let macc := moveFilesToHistoryFold env.ts csv_files
                { dir := env.listing, hist := [], log := uf.1.1.log, trace := uf.1.1.trace }
              let log8 := macc.log ++ ctrlDeleteLogs new_xlsx_files
              { log := log8 ++ ["Connection closed.",
                                "Python timer trigger function completed at " ++ env.utcTs],
                trace := macc.trace ++ [RunAct.disconnectA],
                failed := false, sftpDir := macc.dir, history := macc.hist,
                drive := uf.1.1.st, uploaded := uf.1.2 }

/-! ### Log-entry classifiers used by the temporal claims -/

/-- Entry written by `SftpHandler.get`. -/
def isDownloadedMsg (s : String) : Bool := strStartsWith s "Downloaded: "

/-- Entry written by `convert_csv_to_xlsx` on success. -/
def isConvertedMsg (s : String) : Bool := strStartsWith s "Converted: "

/-- Entry written by `SftpHandler.rename`. -/
def isMovedMsg (s : String) : Bool := strStartsWith s "Moved/Renamed: "

/-- Entry written by `SharePointHandler.upload_file` on success. -/
def isUploadOkMsg (s : String) : Bool := strHasSub s "uploaded successfully"

/-- Marker the `except` clause prepends to the traceback. -/
def tracebackMarker : String := "\n--- EXCEPTION TRACEBACK ---"

/-- Predicate for folder-creation requests in a client call list. -/
def isCreateCall : SPCall → Bool
  | SPCall.createCall _ _ => true
  | _ => false

/-- Predicate for item-move (patch) requests in a client call list. -/
def isPatchCall : SPCall → Bool
  | SPCall.patchCall _ _ _ => true
  | _ => false

/-- Predicate for SFTP uploads in a run trace. -/
def isPutAct : RunAct → Bool
  | RunAct.putA _ _ => true
  | _ => false

/-- Drive state used by the C2 counterexample: the parent folder
`002 Vantaa` exists, its child `Arkisto` does not. -/
def drive002 : DriveState := ⟨["002 Vantaa"], []⟩

/-- Concrete drive for the C9 witness: one workbook inside
`002 Vantaa`. -/
def drive9 : DriveState :=
  ⟨["002 Vantaa", "002 Vantaa/Arkisto"], [("002 Vantaa", ⟨1, "old.xlsx", true⟩)]⟩

/-- Environment of the C1 counterexample: one remote CSV whose
transform (`load_data`) fails after the download. -/
def envK1 : KEnv :=
  { debugMode := false, listing := ["data.csv"],
    transformOk := fun _ => false, saveOk := true, putOk := fun _ => true,
    ts := "2025-02-09_2200" }

/-- Environment of the CTRL-PKS single-input happy-path run used by the
C3 counterexample: one remote CSV, no failures, combine disabled,
destination folder empty, archive folder already present. -/
def envC3 : CEnv :=
  { debugMode := true, combineFiles := false,
    listing := ["data.csv"],
    parseOk := fun _ => true, writeOk := fun _ => true,
    drive := ⟨["Testi", "Testi/Arkisto"], []⟩,
    netFault := fun _ => none,
    tehty := fun _ => none,
    uploadOk := fun _ => true,
    ts := "2025-02-09_2200", utcTs := "2025-02-09T20:00:00+00:00" }

/-- Parameterised environment of the amended C3 statement: the same
single-input no-failure run, in either debug or production mode (the
drive holds both destination trees). -/
def envSingle (b : Bool) : CEnv :=
  { debugMode := b, combineFiles := false, listing := ["data.csv"],
    parseOk := fun _ => true, writeOk := fun _ => true,
    drive := ⟨["Testi", "Testi/Arkisto", "002 Vantaa", "002 Vantaa/Arkisto"], []⟩,
    netFault := fun _ => none, tehty := fun _ => none, uploadOk := fun _ => true,
    ts := "2025-02-09_2200", utcTs := "2025-02-09T20:00:00+00:00" }

/-- Environment of the C4 counterexample: the happy-path single-input
run, except that the document-library upload answers non-2xx. -/
def envC4 : CEnv := { envC3 with uploadOk := fun _ => false }

/-- Environment where the single-file CSV-to-XLSX conversion fails. -/
def envConvFail : CEnv := { envC3 with parseOk := fun _ => false }

/-- Environments with a CSV-free listing for the C10 witness. -/
def cenvNoCsv : CEnv := { envC3 with listing := ["readme.txt"] }

/-- KAATOP environment with a CSV-free listing for the C10 witness. -/
def kenvNoCsv : KEnv := { envK1 with listing := ["readme.txt"] }


/-! ### Theorems -/

/-- Claim C7: `parse_filename_parts` on
`"KONTROLLI_PKS_kuljtilaus_0eur_ed7pv20250209220043.csv"` returns the
prefix `"KONTROLLI_PKS"` and the remainder `"kuljtilaus_0eur_ed7pv"`;
the extension and the trailing 14-digit timestamp are stripped before
the underscore split, as the second conjunct exhibits. -/
theorem parse_filename_parts_kontrolli :
    parse_filename_parts "KONTROLLI_PKS_kuljtilaus_0eur_ed7pv20250209220043.csv" =
      ("KONTROLLI_PKS", "kuljtilaus_0eur_ed7pv") ∧
    stripTrailing14Digits
        (splitext "KONTROLLI_PKS_kuljtilaus_0eur_ed7pv20250209220043.csv").1 =
      "KONTROLLI_PKS_kuljtilaus_0eur_ed7pv" ∧
    splitUnderscore "KONTROLLI_PKS_kuljtilaus_0eur_ed7pv" =
      ["KONTROLLI", "PKS", "kuljtilaus", "0eur", "ed7pv"] := by
  refine ⟨by decide, by decide, by decide⟩

/-- Claim C8: `extract_records` then `merge_records` on the three example
rows yields exactly the single row
`{TAPKaatop := "A", TAPKaatopDefinition := "desc"}` (the unmatched
`COMPos = 2` row is dropped and the join key does not survive), and in
general left rows whose key has no match on the right contribute
nothing to the merged result (inner-join semantics). -/
theorem extract_merge_inner_join :
    (let p := extract_records
        [(⟨1, "ID", "A"⟩ : RawRow), ⟨1, "TEXT", "desc"⟩, ⟨2, "ID", "B"⟩]
     merge_records p.1 p.2) = [⟨"A", "desc"⟩] ∧
    ∀ (ids texts : List (Int × String)),
      merge_records ids texts =
        merge_records (ids.filter (fun i => texts.any (fun t => t.1 == i.1))) texts := by
  constructor
  · decide
  · intro ids texts
    induction ids with
    | nil => rfl
    | cons i rest ih =>
      by_cases h : texts.any (fun t => t.1 == i.1)
      · simp only [merge_records, List.flatMap_cons, List.filter_cons, h, if_true]
        simpa [merge_records] using ih
      · have hnil : texts.filter (fun t => t.1 == i.1) = [] := by
          rw [List.filter_eq_nil_iff]
          intro t ht
          have := (List.any_eq_false).mp (Bool.eq_false_iff.mpr h) t ht
          simpa using this
        simp only [merge_records, List.flatMap_cons, List.filter_cons, h, if_false, hnil,
          List.map_nil, List.nil_append]
        simpa [merge_records] using ih

/-- Auxiliary: the formatted timestamp token always has 15 characters. -/
theorem get_timestamp_fmt_data_length (t : FiTime) :
    (get_timestamp_fmt t).data.length = 15 := rfl

/-- Claim C5, counterexample: Two invocations of `move_files_to_history`
at distinct instants inside the same minute, on two files both named
`data.csv`, compute the *same* destination path: the
`yyyy-MM-dd_HHmm` token has only minute resolution, so the claimed
"never collides" fails. -/
theorem history_dest_same_minute_collision :
    (⟨2025, 2, 9, 22, 0, 3⟩ : FiTime) ≠ (⟨2025, 2, 9, 22, 0, 44⟩ : FiTime) ∧
    history_dest (get_timestamp_fmt ⟨2025, 2, 9, 22, 0, 3⟩) "data.csv" =
      history_dest (get_timestamp_fmt ⟨2025, 2, 9, 22, 0, 44⟩) "data.csv" := by
  refine ⟨by decide, by decide⟩

/-- Claim C5, amended: The timestamp token ignores the seconds field
(minute resolution), and two invocations of `move_files_to_history`
whose formatted tokens differ — i.e. falling in different minutes — do
compute distinct destination paths, for any shared base name. -/
theorem history_dest_distinct_of_distinct_minute (t₁ t₂ : FiTime) (name : String)
    (h : get_timestamp_fmt t₁ ≠ get_timestamp_fmt t₂) :
    (∀ s₁ s₂ : Nat,
      get_timestamp_fmt { t₁ with second := s₁ } =
        get_timestamp_fmt { t₁ with second := s₂ }) ∧
    history_dest (get_timestamp_fmt t₁) name ≠ history_dest (get_timestamp_fmt t₂) name := by
  refine ⟨fun s₁ s₂ => rfl, ?_⟩
  intro heq
  apply h
  have hdata : ("history/".data ++ (get_timestamp_fmt t₁).data) ++
      ("_".data ++ name.data) =
      ("history/".data ++ (get_timestamp_fmt t₂).data) ++ ("_".data ++ name.data) := by
    have h0 := congrArg String.data heq
    simp only [history_dest, String.data_append, List.append_assoc] at h0 ⊢
    exact h0
  have h1 : "history/".data ++ (get_timestamp_fmt t₁).data =
      "history/".data ++ (get_timestamp_fmt t₂).data :=
    List.append_cancel_right hdata
  have h2 : (get_timestamp_fmt t₁).data = (get_timestamp_fmt t₂).data :=
    List.append_cancel_left h1
  exact congrArg String.mk h2

/-- Claim C5, witness: Instantiation of the amended statement at two
instants one minute apart. -/
theorem history_dest_distinct_of_distinct_minute_witness :
    history_dest (get_timestamp_fmt ⟨2025, 2, 9, 22, 0, 0⟩) "data.csv" ≠
      history_dest (get_timestamp_fmt ⟨2025, 2, 9, 22, 1, 0⟩) "data.csv" :=
  (history_dest_distinct_of_distinct_minute ⟨2025, 2, 9, 22, 0, 0⟩
    ⟨2025, 2, 9, 22, 1, 0⟩ "data.csv" (by decide)).2

/-- Claim C6: `convert_csv_to_xlsx` is total: every run returns either the
failure sentinel `("Error, no path", False)` or `(output path, True)`;
a missing file or a non-`.csv` path always yields the sentinel, and
when the file exists, has a `.csv` extension, and both the parse and
the write succeed, the result is the derived output path with
success `True`. -/
theorem convert_csv_to_xlsx_total (env : ConvEnv) (prependTs : Bool) (ts : String) :
    ((convert_csv_to_xlsx env prependTs ts).1 = ("Error, no path", false) ∨
      (convert_csv_to_xlsx env prependTs ts).1 =
        (xlsxPathFor env.csvPath prependTs ts, true)) ∧
    (env.fileExists = false →
      (convert_csv_to_xlsx env prependTs ts).1 = ("Error, no path", false)) ∧
    (strEndsWith (lowerStr env.csvPath) ".csv" = false →
      (convert_csv_to_xlsx env prependTs ts).1 = ("Error, no path", false)) ∧
    (env.fileExists = true → strEndsWith (lowerStr env.csvPath) ".csv" = true →
      env.parseOk = true → env.writeOk = true →
      (convert_csv_to_xlsx env prependTs ts).1 =
        (xlsxPathFor env.csvPath prependTs ts, true)) := by
  obtain ⟨p, fe, po, wo⟩ := env
  cases fe <;> cases po <;> cases wo <;>
    cases hext : strEndsWith (lowerStr p) ".csv" <;>
      simp [convert_csv_to_xlsx, convertBody, hext]

/-- Claim C6, witness: The missing-file branch at a concrete input
returns the sentinel, and the all-success branch returns the derived
path. -/
theorem convert_csv_to_xlsx_total_witness :
    (convert_csv_to_xlsx ⟨"/tmp/data.csv", false, true, true⟩ false "").1 =
      ("Error, no path", false) ∧
    (convert_csv_to_xlsx ⟨"/tmp/data.csv", true, true, true⟩ false "").1 =
      ("/tmp/data.xlsx", true) := by
  constructor
  · exact (convert_csv_to_xlsx_total ⟨"/tmp/data.csv", false, true, true⟩ false "").2.1 rfl
  · have h := (convert_csv_to_xlsx_total ⟨"/tmp/data.csv", true, true, true⟩ false "").2.2.2
      rfl (by decide) rfl rfl
    rw [h]
    decide

/-- Claim C2, counterexample: `create_folder_if_not_exists` on
`"002 Vantaa/Arkisto"` probes with `list_files` on that very path — the
trace contains no `listFiles` call on the parent `"002 Vantaa"` — so
the claim's "probes existence via a listFiles call on the parent
lookup" does not match the code. -/
theorem create_folder_probe_is_on_target_path :
    (create_folder_if_not_exists ⟨drive002, fun _ => none⟩ "002 Vantaa/Arkisto").calls.head?
        = some (SPCall.listCall "002 Vantaa/Arkisto") ∧
    SPCall.listCall "002 Vantaa" ∉
      (create_folder_if_not_exists ⟨drive002, fun _ => none⟩ "002 Vantaa/Arkisto").calls := by
  refine ⟨by decide, by decide⟩

/-- Claim C2, amended: `create_folder_if_not_exists(path)` probes
existence via a `list_files` call on the path itself, not its parent;
it re-raises any probe error not of the "not found" class unchanged
with no creation call; and it issues a folder-creation request exactly
when the probe fails with an error containing `itemNotFound`.  That
creation request, however, is a POST to the *missing* path's own
children endpoint, so it is answered 404 and the function raises the
formatted creation error: the folder is never created, the drive state
is unchanged, and each of two consecutive calls on the same missing
path performs exactly one (failing) creation call — not one creation
and then zero. -/
theorem create_folder_if_not_exists_semantics :
    (∀ (w : SPWorld) (p e : String), list_files w p = Except.error e →
      strHasSub e "itemNotFound" = false →
      (create_folder_if_not_exists w p).result = Except.error e ∧
      (create_folder_if_not_exists w p).calls = [SPCall.listCall p]) ∧
    (∀ (w : SPWorld) (p : String),
      (create_folder_if_not_exists w p).calls.countP (fun c => isCreateCall c) =
        (match list_files w p with
         | Except.error e => if strHasSub e "itemNotFound" then 1 else 0
         | Except.ok _ => 0)) ∧
    (∀ (st : DriveState) (p : String), p ∉ st.folders → p ≠ "" →
      (create_folder_if_not_exists ⟨st, fun _ => none⟩ p).result =
        Except.error ("Failed to create folder '" ++ p ++ "': 404, " ++ notFoundBody) ∧
      (create_folder_if_not_exists ⟨st, fun _ => none⟩ p).st = st ∧
      (create_folder_if_not_exists ⟨st, fun _ => none⟩ p).calls.countP
          (fun c => isCreateCall c) = 1 ∧
      (create_folder_if_not_exists
          ⟨(create_folder_if_not_exists ⟨st, fun _ => none⟩ p).st, fun _ => none⟩ p).calls.countP
          (fun c => isCreateCall c) = 1) := by
  refine ⟨?_, ?_, ?_⟩
  · intro w p e he hnf
    simp [create_folder_if_not_exists, he, hnf]
  · intro w p
    cases hl : list_files w p with
    | ok items => simp [create_folder_if_not_exists, hl, isCreateCall]
    | error e =>
      by_cases hnf : strHasSub e "itemNotFound" = true
      · by_cases hmem : p ∈ w.st.folders
        · simp [create_folder_if_not_exists, hl, hnf, hmem, isCreateCall]
        · simp [create_folder_if_not_exists, hl, hnf, hmem, isCreateCall]
      · simp only [Bool.not_eq_true] at hnf
        simp [create_folder_if_not_exists, hl, hnf, isCreateCall]
  · intro st p hp hne
    have hfirst : list_files ⟨st, fun _ => none⟩ p =
        Except.error ("Failed to list files: 404, " ++ notFoundBody) := by
      simp [list_files, hne, hp]
    have hsub : strHasSub ("Failed to list files: 404, " ++ notFoundBody) "itemNotFound"
        = true := by decide
    have hstep : ∀ q : SPOut Unit,
        q = create_folder_if_not_exists ⟨st, fun _ => none⟩ p →
        q.result = Except.error ("Failed to create folder '" ++ p ++ "': 404, " ++
          notFoundBody) ∧ q.st = st ∧
        q.calls.countP (fun c => isCreateCall c) = 1 := by
      intro q hq
      subst hq
      refine ⟨?_, ?_, ?_⟩ <;>
        simp [create_folder_if_not_exists, hfirst, hsub, hp, isCreateCall]
    obtain ⟨h1, h2, h3⟩ := hstep _ rfl
    refine ⟨h1, h2, h3, ?_⟩
    rw [h2]
    exact h3

/-- Claim C2, witness: instantiation of the amended statement: on a
drive where only `002 Vantaa` exists, each of two consecutive calls on
the missing `002 Vantaa/Arkisto` performs exactly one creation call,
and the first raises the 404 creation error with the drive unchanged. -/
theorem create_folder_if_not_exists_semantics_witness :
    (create_folder_if_not_exists ⟨drive002, fun _ => none⟩ "002 Vantaa/Arkisto").result =
      Except.error ("Failed to create folder '002 Vantaa/Arkisto': 404, " ++ notFoundBody) ∧
    (create_folder_if_not_exists ⟨drive002, fun _ => none⟩ "002 Vantaa/Arkisto").st =
      drive002 ∧
    (create_folder_if_not_exists ⟨drive002, fun _ => none⟩ "002 Vantaa/Arkisto").calls.countP
        (fun c => isCreateCall c) = 1 ∧
    (create_folder_if_not_exists
        ⟨(create_folder_if_not_exists ⟨drive002, fun _ => none⟩ "002 Vantaa/Arkisto").st,
         fun _ => none⟩ "002 Vantaa/Arkisto").calls.countP (fun c => isCreateCall c) = 1 :=
  create_folder_if_not_exists_semantics.2.2 drive002 "002 Vantaa/Arkisto"
    (by decide) (by decide)

/-- Auxiliary list form of `reparentItem_items_snd`. -/
theorem map_snd_reparent (l : List (String × SPItem)) (i : Nat) (a : String) :
    (l.map (fun pr => if pr.2.id == i then (a, pr.2) else pr)).map (fun pr => pr.2) =
      l.map (fun pr => pr.2) := by
  induction l with
  | nil => rfl
  | cons q rest ih =>
    simp only [List.map_cons, ih]
    by_cases h : q.2.id == i <;> simp [h]

/-- Auxiliary: a parent-reference patch keeps the underlying items
(ids, names, flags) unchanged — a move, never a copy. -/
theorem reparentItem_items_snd (st : DriveState) (i : Nat) (a : String) :
    (reparentItem st i a).items.map (fun pr => pr.2) =
      st.items.map (fun pr => pr.2) := by
  simp only [reparentItem]
  exact map_snd_reparent st.items i a

/-- Auxiliary: after the patch, every entry holding the patched id sits
under the new parent folder. -/
theorem reparentItem_parent (st : DriveState) (i : Nat) (a : String) :
    ∀ pr ∈ (reparentItem st i a).items, pr.2.id = i → pr.1 = a := by
  intro pr hpr hid
  simp only [reparentItem, List.mem_map] at hpr
  obtain ⟨q, hq, rfl⟩ := hpr
  by_cases h : q.2.id == i
  · simp [h]
  · simp only [h, if_neg, Bool.false_eq_true, not_false_eq_true, if_false] at hid ⊢
    exact absurd (by simp [hid]) h

/-- Claim C9: `move_file_to_archive` on a name absent from the source
folder's listing raises the not-found error and issues zero patch
calls; on a present name it issues exactly one listing call and one
patch call carrying the matched item's id and the archive parent path
(same name kept), and the drive's items are re-parented in place: ids,
names and flags are all preserved (no copy), with the patched item now
under the archive folder. -/
theorem move_file_to_archive_semantics :
    (∀ (w : SPWorld) (name arch mainF : String) (items : List SPItem),
      list_files w mainF = Except.ok items →
      items.find? (fun item => item.name == name) = none →
      (move_file_to_archive w name arch mainF).result =
        Except.error ("File named '" ++ name ++ "' not found in the current folder.") ∧
      (move_file_to_archive w name arch mainF).calls.countP (fun c => isPatchCall c) = 0) ∧
    (∀ (w : SPWorld) (name arch mainF : String) (items : List SPItem) (target : SPItem),
      list_files w mainF = Except.ok items →
      items.find? (fun item => item.name == name) = some target →
      (move_file_to_archive w name arch mainF).calls =
        [SPCall.listCall mainF,
         SPCall.patchCall target.id ("/drive/root:/" ++ arch) name] ∧
      (move_file_to_archive w name arch mainF).st.items.map (fun pr => pr.2) =
        w.st.items.map (fun pr => pr.2) ∧
      (∀ pr ∈ (move_file_to_archive w name arch mainF).st.items,
        pr.2.id = target.id → pr.1 = arch)) := by
  constructor
  · intro w name arch mainF items hl hfind
    simp [move_file_to_archive, hl, hfind, isPatchCall]
  · intro w name arch mainF items target hl hfind
    refine ⟨?_, ?_, ?_⟩
    · simp [move_file_to_archive, hl, hfind]
    · simp only [move_file_to_archive, hl, hfind]
      exact reparentItem_items_snd w.st target.id arch
    · simp only [move_file_to_archive, hl, hfind]
      exact reparentItem_parent w.st target.id arch

/-- Claim C9, witness: Instantiation: a missing name raises with zero
patch calls; the present name `old.xlsx` is patched by id 1 into the
archive folder. -/
theorem move_file_to_archive_semantics_witness :
    ((move_file_to_archive ⟨drive9, fun _ => none⟩ "nope.xlsx" "002 Vantaa/Arkisto"
        "002 Vantaa").result =
      Except.error "File named 'nope.xlsx' not found in the current folder." ∧
     (move_file_to_archive ⟨drive9, fun _ => none⟩ "nope.xlsx" "002 Vantaa/Arkisto"
        "002 Vantaa").calls.countP (fun c => isPatchCall c) = 0) ∧
    (move_file_to_archive ⟨drive9, fun _ => none⟩ "old.xlsx" "002 Vantaa/Arkisto"
        "002 Vantaa").calls =
      [SPCall.listCall "002 Vantaa",
       SPCall.patchCall 1 "/drive/root:/002 Vantaa/Arkisto" "old.xlsx"] := by
  constructor
  · exact move_file_to_archive_semantics.1 ⟨drive9, fun _ => none⟩ "nope.xlsx"
      "002 Vantaa/Arkisto" "002 Vantaa" [⟨1, "old.xlsx", true⟩] rfl rfl
  · exact (move_file_to_archive_semantics.2 ⟨drive9, fun _ => none⟩ "old.xlsx"
      "002 Vantaa/Arkisto" "002 Vantaa" [⟨1, "old.xlsx", true⟩] ⟨1, "old.xlsx", true⟩
      rfl rfl).1

/-- Auxiliary: moving one file to history appends exactly its
timestamped name to the history listing, whether or not the `history`
directory already existed. -/
theorem moveFilesToHistoryFold_one_hist (ts n : String) (a : SftpAcc) :
    (moveFilesToHistoryFold ts [n] a).hist = a.hist ++ [ts ++ "_" ++ n] := by
  simp only [moveFilesToHistoryFold]
  split <;> simp

/-- Auxiliary: moving one file to history issues no `put` call. -/
theorem moveFilesToHistoryFold_one_put (ts n : String) (a : SftpAcc) :
    (moveFilesToHistoryFold ts [n] a).trace.countP (fun x => isPutAct x) =
      a.trace.countP (fun x => isPutAct x) := by
  simp only [moveFilesToHistoryFold]
  split <;> simp [isPutAct]

/-- Auxiliary: the KAATOP download loop archives every downloaded name
(in order) and stages every name under `/tmp`, issuing no `put` call. -/
theorem kaatopDownloadFold_spec (ts : String) (names : List String) :
    ∀ (acc : SftpAcc) (ls : List String),
      (kaatopDownloadFold ts names (acc, ls)).1.hist =
        acc.hist ++ names.map (fun n => ts ++ "_" ++ n) ∧
      (kaatopDownloadFold ts names (acc, ls)).2 =
        ls ++ names.map (fun n => joinPath "/tmp" n) ∧
      (kaatopDownloadFold ts names (acc, ls)).1.trace.countP (fun x => isPutAct x) =
        acc.trace.countP (fun x => isPutAct x) := by
  induction names with
  | nil => intro acc ls; simp [kaatopDownloadFold]
  | cons n rest ih =>
    intro acc ls
    simp only [kaatopDownloadFold]
    refine ⟨?_, ?_, ?_⟩
    · rw [(ih _ _).1, moveFilesToHistoryFold_one_hist]
      simp
    · rw [(ih _ _).2.1]
      simp
    · rw [(ih _ _).2.2, moveFilesToHistoryFold_one_put]
      simp [isPutAct]

/-- Claim C1, counterexample: In the KAATOP job, when the transform of
the single downloaded CSV fails, the run raises while the input has
already been relocated to the remote `history` directory and no
converted output exists or was uploaded — exactly the state the claim
rules out. -/
theorem kaatop_transform_failure_leaves_archived_unconverted :
    (kaatopRun envK1).failed = true ∧
    "2025-02-09_2200_data.csv" ∈ (kaatopRun envK1).history ∧
    (kaatopRun envK1).processedRemote = [] ∧
    (kaatopRun envK1).trace.countP (fun x => isPutAct x) = 0 := by
  refine ⟨by decide, by decide, by decide, by decide⟩

/-- Auxiliary: every KAATOP run either succeeds or carries the
traceback marker in its log. -/
theorem kaatopRun_failed_or_traceback (env : KEnv) :
    (kaatopRun env).failed = false ∨ tracebackMarker ∈ (kaatopRun env).log := by
  simp only [kaatopRun]
  split
  · left; rfl
  · split
    · right; simp [failLog, tracebackMarker]
    · split
      · right; simp [failLog, tracebackMarker]
      · left; rfl


/-- Claim C1, amended: In the KAATOP job each input is moved to the
remote `history` directory immediately after its download and *before*
any transform: the final history listing is always the timestamped list
of all discovered CSVs, regardless of later failures.  Consequently a
transform failure leaves the inputs archived with nothing converted or
uploaded (failed run, empty remote `PROCESSED` set, zero `put` calls),
while the diagnostic trail is still produced: every failed run carries
the traceback marker in its emitted log. -/
theorem kaatop_archival_precedes_transform :
    (∀ env : KEnv, (kaatopRun env).history =
      (env.listing.filter (fun f => strEndsWith (lowerStr f) ".csv")).map
        (fun n => env.ts ++ "_" ++ n)) ∧
    (∀ env : KEnv, (kaatopRun env).failed = true →
      tracebackMarker ∈ (kaatopRun env).log) ∧
    (∀ env : KEnv, env.transformOk = (fun _ => false) →
      env.listing.filter (fun f => strEndsWith (lowerStr f) ".csv") ≠ [] →
      (kaatopRun env).failed = true ∧ (kaatopRun env).processedRemote = [] ∧
      (kaatopRun env).trace.countP (fun x => isPutAct x) = 0) := by
  refine ⟨?_, ?_, ?_⟩
  · intro env
    simp only [kaatopRun]
    split
    · rename_i hemp
      rw [List.isEmpty_iff] at hemp
      simp [hemp]
    · split
      · rw [(kaatopDownloadFold_spec env.ts _ _ _).1]; simp
      · split
        · rw [(kaatopDownloadFold_spec env.ts _ _ _).1]; simp
        · rw [(kaatopDownloadFold_spec env.ts _ _ _).1]; simp
  · intro env h
    rcases kaatopRun_failed_or_traceback env with hf | hm
    · rw [h] at hf; exact absurd hf (by decide)
    · exact hm
  · intro env htr hne
    obtain ⟨n, rest, hcons⟩ := List.exists_cons_of_ne_nil hne
    simp only [kaatopRun]
    split
    · rename_i hemp
      rw [List.isEmpty_iff] at hemp
      exact absurd hemp hne
    · rw [htr, (kaatopDownloadFold_spec env.ts _ _ _).2.1, hcons]
      simp only [List.map_cons, List.nil_append, kaatopTransformFold]
      simp only [Bool.false_eq_true, if_false]
      refine ⟨trivial, trivial, ?_⟩
      rw [(kaatopDownloadFold_spec env.ts _ _ _).2.2]
      simp [isPutAct]

/-- Claim C1, witness: Instantiation of the amended statement at the
concrete failing environment. -/
theorem kaatop_archival_precedes_transform_witness :
    (kaatopRun envK1).failed = true ∧ (kaatopRun envK1).processedRemote = [] ∧
    (kaatopRun envK1).trace.countP (fun x => isPutAct x) = 0 :=
  kaatop_archival_precedes_transform.2.2 envK1 rfl (by decide)

/-- Claim C3, counterexample: In the successful single-input CTRL-PKS
run the log holds exactly one upload-success entry and one
`Moved/Renamed` entry, but the upload-success entry comes *first*: the
source CSV is moved to history only after the converted output is
uploaded, contradicting the claimed `Moved/Renamed`-before-upload
order. -/
theorem ctrl_claimed_order_fails :
    (ctrlRun envC3).log.countP (fun s => isUploadOkMsg s) = 1 ∧
    (ctrlRun envC3).log.countP (fun s => isMovedMsg s) = 1 ∧
    (ctrlRun envC3).log.findIdx (fun s => isUploadOkMsg s) <
      (ctrlRun envC3).log.findIdx (fun s => isMovedMsg s) := by
  refine ⟨by decide, by decide, by decide⟩

/-- Claim C3, amended: For the successful single-input CTRL-PKS run (one
discovered CSV, combine disabled, no failures, empty destination), in
either mode, the log contains exactly one `Downloaded`, one
`Converted`, one upload-success and one `Moved/Renamed` entry, in
*that* order — the source CSV is moved to history only after the
converted output is uploaded — and the source CSV ends up under
`history` with the timestamp prefix. -/
theorem ctrl_single_run_log_order (b : Bool) :
    (ctrlRun (envSingle b)).log.countP (fun s => isDownloadedMsg s) = 1 ∧
    (ctrlRun (envSingle b)).log.countP (fun s => isConvertedMsg s) = 1 ∧
    (ctrlRun (envSingle b)).log.countP (fun s => isUploadOkMsg s) = 1 ∧
    (ctrlRun (envSingle b)).log.countP (fun s => isMovedMsg s) = 1 ∧
    (ctrlRun (envSingle b)).log.findIdx (fun s => isDownloadedMsg s) <
      (ctrlRun (envSingle b)).log.findIdx (fun s => isConvertedMsg s) ∧
    (ctrlRun (envSingle b)).log.findIdx (fun s => isConvertedMsg s) <
      (ctrlRun (envSingle b)).log.findIdx (fun s => isUploadOkMsg s) ∧
    (ctrlRun (envSingle b)).log.findIdx (fun s => isUploadOkMsg s) <
      (ctrlRun (envSingle b)).log.findIdx (fun s => isMovedMsg s) ∧
    (ctrlRun (envSingle b)).failed = false ∧
    (ctrlRun (envSingle b)).history = ["2025-02-09_2200_data.csv"] := by
  cases b <;> decide

/-- Claim C4, counterexample: When the upload step fails after the
remote session was connected, the CTRL-PKS run propagates the
exception without ever calling `disconnect`: the trace holds the
connect but no disconnect action. -/
theorem ctrl_upload_failure_skips_disconnect :
    (ctrlRun envC4).failed = true ∧
    RunAct.connectA ∈ (ctrlRun envC4).trace ∧
    RunAct.disconnectA ∉ (ctrlRun envC4).trace := by
  refine ⟨by decide, by decide, by decide⟩

/-- Auxiliary: every CTRL-PKS run either succeeds or carries the
traceback marker in its log. -/
theorem ctrlRun_failed_or_traceback (env : CEnv) :
    (ctrlRun env).failed = false ∨ tracebackMarker ∈ (ctrlRun env).log := by
  simp only [ctrlRun]
  split
  · left; rfl
  · split
    · rename_i pr heq
      right
      split at heq
      · split at heq
        · simp at heq
        · rw [Except.error.injEq] at heq
          rw [← heq]
          simp [failLog, tracebackMarker]
      · split at heq
        · simp at heq
        · rw [Except.error.injEq] at heq
          rw [← heq]
          simp [failLog, tracebackMarker]
    · split
      · right; simp [failLog, tracebackMarker]
      · split
        · right; simp [failLog, tracebackMarker]
        · split
          · right; simp [failLog, tracebackMarker]
          · split
            · right; simp [failLog, tracebackMarker]
            · left; rfl

/-- Claim C4, amended: The CTRL-PKS orchestrator attempts a graceful
disconnect before raising only on the single-file conversion-failure
path; failures in later steps (such as upload) propagate with no
disconnect attempt.  In every failed run the full traceback is still
appended to the accumulated log before the failure surfaces. -/
theorem ctrl_teardown_semantics :
    ((ctrlRun envConvFail).failed = true ∧
     RunAct.disconnectA ∈ (ctrlRun envConvFail).trace ∧
     tracebackMarker ∈ (ctrlRun envConvFail).log) ∧
    (∀ env : CEnv, (ctrlRun env).failed = true →
      tracebackMarker ∈ (ctrlRun env).log) := by
  constructor
  · refine ⟨by decide, by decide, by decide⟩
  · intro env h
    rcases ctrlRun_failed_or_traceback env with hf | hm
    · rw [h] at hf; exact absurd hf (by decide)
    · exact hm

/-- Claim C4, witness: Instantiation of the amended statement's general
part at the failing-upload environment. -/
theorem ctrl_teardown_semantics_witness :
    tracebackMarker ∈ (ctrlRun envC4).log :=
  ctrl_teardown_semantics.2 envC4 (by decide)

/-- Claim C10: When the remote input listing holds no name ending in
`.csv` (case-insensitively), both orchestrators disconnect and return
without raising: the trace is exactly connect, the two directory
changes, one listing and the disconnect — no download, no conversion,
no archival, no upload, and no document-library client construction —
and the log ends with the termination notice and the connection-closed
entry. -/
theorem no_csv_clean_exit (cenv : CEnv) (kenv : KEnv)
    (hc : cenv.listing.filter (fun f => strEndsWith (lowerStr f) ".csv") = [])
    (hk : kenv.listing.filter (fun f => strEndsWith (lowerStr f) ".csv") = []) :
    (ctrlRun cenv).failed = false ∧
    (ctrlRun cenv).trace = [RunAct.connectA, RunAct.cwdA "JANNE",
      RunAct.cwdA "vantaa_tallenna_liite", RunAct.listdirA, RunAct.disconnectA] ∧
    (ctrlRun cenv).log.reverse.take 2 =
      ["Connection closed.", "No .csv files found. Terminating..."] ∧
    (ctrlRun cenv).drive = cenv.drive ∧
    (ctrlRun cenv).uploaded = [] ∧
    (ctrlRun cenv).history = [] ∧
    (kaatopRun kenv).failed = false ∧
    (kaatopRun kenv).trace = [RunAct.connectA, RunAct.cwdA "jhl_vastaanottopaikat",
      RunAct.cwdA "RAW-DATA", RunAct.listdirA, RunAct.disconnectA] ∧
    (kaatopRun kenv).log.reverse.take 2 =
      ["Connection closed.", "No .csv files found. Terminating..."] ∧
    (kaatopRun kenv).history = [] ∧
    (kaatopRun kenv).processedRemote = [] ∧
    (kaatopRun kenv).rawDir = kenv.listing := by
  simp [ctrlRun, kaatopRun, hc, hk, List.reverse_append]

/-- Claim C10, witness: Instantiation at concrete CSV-free listings. -/
theorem no_csv_clean_exit_witness :
    (ctrlRun cenvNoCsv).failed = false ∧ (kaatopRun kenvNoCsv).failed = false ∧
    (ctrlRun cenvNoCsv).uploaded = [] ∧ (kaatopRun kenvNoCsv).history = [] :=
  ⟨(no_csv_clean_exit cenvNoCsv kenvNoCsv (by decide) (by decide)).1,
   (no_csv_clean_exit cenvNoCsv kenvNoCsv (by decide) (by decide)).2.2.2.2.2.2.1,
   (no_csv_clean_exit cenvNoCsv kenvNoCsv (by decide) (by decide)).2.2.2.2.1,
   (no_csv_clean_exit cenvNoCsv kenvNoCsv (by decide) (by decide)).2.2.2.2.2.2.2.2.2.1⟩
